import Mathlib

/-!
Verification of the network-tools repository (protocol detector and Telnet
client).  Bytes are modelled as `Nat`, byte strings as `List Nat`, Python
dictionaries as association lists, and the asynchronous I/O environment as
explicit outcome parameters.  Every definition is translated from the
corresponding Python source in `src/network_tools`.
-/

/-! ## Telnet command codec (src/network_tools/clients/telnet/types.py) -/

namespace TelnetCommand

/-- Telnet command byte IAC (Interpret As Command), `TelnetCommand.IAC = 255`. -/
def IAC : Nat := 255

/-- Telnet command byte DONT. -/
def DONT : Nat := 254

/-- Telnet command byte DO. -/
def DO : Nat := 253

/-- Telnet command byte WONT. -/
def WONT : Nat := 252

/-- Telnet command byte WILL. -/
def WILL : Nat := 251

/-- Telnet command byte SB (Subnegotiation Begin). -/
def SB : Nat := 250

/-- Telnet command byte SE (Subnegotiation End). -/
def SE : Nat := 240

/-- Membership test of `TelnetCommand.is_negotiation`: the byte is one of
DO, DONT, WILL, WONT. -/
def is_negotiation (cmd : Nat) : Bool :=
  cmd == DO || cmd == DONT || cmd == WILL || cmd == WONT

/-- The response command lookup of `TelnetCommand.get_response_command`
(`.get(cmd, 0)` on the dict, hence `0` for unknown commands). -/
def get_response_command (cmd : Nat) : Nat :=
  if cmd = DO then WILL
  else if cmd = DONT then WONT
  else if cmd = WILL then DO
  else if cmd = WONT then DONT
  else 0

end TelnetCommand

namespace TelnetOption

/-- Telnet option BINARY. -/
def BINARY : Nat := 0

/-- Telnet option ECHO. -/
def ECHO : Nat := 1

/-- Telnet option SGA (Suppress Go Ahead). -/
def SGA : Nat := 3

/-- Telnet option TERMINAL_TYPE. -/
def TERMINAL_TYPE : Nat := 24

/-- Telnet option NAWS (Negotiate About Window Size). -/
def NAWS : Nat := 31

/-- The list returned by `TelnetOption.get_common_options`. -/
def get_common_options : List Nat := [SGA, ECHO, BINARY]

/-- The list returned by `TelnetOption.get_advanced_options`. -/
def get_advanced_options : List Nat := [TERMINAL_TYPE, NAWS]

end TelnetOption

namespace TelnetSequence

/-- `TelnetSequence.create_command`: the 3-byte frame `IAC cmd option`. -/
def create_command (command opt : Nat) : List Nat :=
  [TelnetCommand.IAC, command, opt]

/-- `TelnetSequence.create_subnegotiation`: `IAC SB option <data> IAC SE`. -/
def create_subnegotiation (opt : Nat) (data : List Nat) : List Nat :=
  [TelnetCommand.IAC, TelnetCommand.SB, opt] ++ data ++ [TelnetCommand.IAC, TelnetCommand.SE]

end TelnetSequence

namespace NegotiationResponse

/-- `NegotiationResponse.accept`: reply with the standard response command. -/
def accept (command opt : Nat) : List Nat :=
  TelnetSequence.create_command (TelnetCommand.get_response_command command) opt

/-- `NegotiationResponse.reject`: WONT for DO, DONT for WILL, otherwise agree. -/
def reject (command opt : Nat) : List Nat :=
  if command = TelnetCommand.DO then TelnetSequence.create_command TelnetCommand.WONT opt
  else if command = TelnetCommand.WILL then TelnetSequence.create_command TelnetCommand.DONT opt
  else accept command opt

end NegotiationResponse

/-! ## Telnet negotiator state (src/network_tools/clients/telnet/negotiate.py) -/

/-- The five states of `ParserState` in types.py. -/
inductive ParserState
  | DATA
  | IAC
  | COMMAND
  | SUBNEG
  | SUBNEG_IAC
deriving DecidableEq, Repr

/-- The mutable negotiator fields of the `TelnetNegotiator` dataclass.
`terminal_type` holds the ASCII bytes of the terminal-type string (default
"VT100"); the two option dicts are modelled as association lists. -/
structure TelnetNegotiator where
  terminal_type : List Nat
  window_width : Nat
  window_height : Nat
  our_options : List (Nat × Bool)
  their_options : List (Nat × Bool)
deriving DecidableEq, Repr

/-- Python dict assignment `m[k] = v` on an association list: overwrite the
existing binding or append a fresh one. -/
def assocSet : List (Nat × Bool) → Nat → Bool → List (Nat × Bool)
  | [], k, v => [(k, v)]
  | (k1, v1) :: rest, k, v =>
    if k1 = k then (k, v) :: rest else (k1, v1) :: assocSet rest k v

/-- A freshly constructed `TelnetNegotiator()` with the default settings
(terminal type "VT100" in ASCII, window 132 x 100, empty option maps). -/
def defaultNegotiator : TelnetNegotiator :=
  { terminal_type := [86, 84, 49, 48, 48]
    window_width := 132
    window_height := 100
    our_options := []
    their_options := [] }

/-- `TelnetNegotiator._should_accept_option`: common or advanced options. -/
def should_accept_option (opt : Nat) : Bool :=
  TelnetOption.get_common_options.contains opt || TelnetOption.get_advanced_options.contains opt

/-- `TelnetNegotiator._update_option_state`: DO/DONT write `our_options`,
WILL/WONT write `their_options`. -/
def update_option_state (neg : TelnetNegotiator) (opt cmd : Nat) (enabled : Bool) :
    TelnetNegotiator :=
  if cmd = TelnetCommand.DO ∨ cmd = TelnetCommand.DONT then
    { neg with our_options := assocSet neg.our_options opt enabled }
  else
    { neg with their_options := assocSet neg.their_options opt enabled }

/-- `TelnetNegotiator._send_window_size`: NAWS subnegotiation carrying the
window width and height as big-endian 16-bit values. -/
def send_window_size (neg : TelnetNegotiator) : List Nat :=
  TelnetSequence.create_subnegotiation TelnetOption.NAWS
    [(neg.window_width >>> 8) % 256, neg.window_width % 256,
     (neg.window_height >>> 8) % 256, neg.window_height % 256]

/-- `TelnetNegotiator._handle_terminal_type`: on DO agree and reply WILL; on
SB with payload starting with byte 1 (SEND) reply `SB TERMINAL_TYPE 0 <type>`;
otherwise no reply.  Returns the updated negotiator and the reply bytes. -/
def handle_terminal_type (neg : TelnetNegotiator) (opt cmd : Nat) (data : List Nat) :
    TelnetNegotiator × List Nat :=
  if cmd = TelnetCommand.DO then
    ({ neg with our_options := assocSet neg.our_options opt true },
     TelnetSequence.create_command TelnetCommand.WILL opt)
  else if cmd = TelnetCommand.SB ∧ data.head? = some 1 then
    (neg, TelnetSequence.create_subnegotiation opt (0 :: neg.terminal_type))
  else (neg, [])

/-- `TelnetNegotiator._handle_window_size`: on DO agree and reply WILL NAWS
followed immediately by the window-size subnegotiation; otherwise no reply. -/
def handle_window_size (neg : TelnetNegotiator) (opt cmd : Nat) (_data : List Nat) :
    TelnetNegotiator × List Nat :=
  if cmd = TelnetCommand.DO then
    ({ neg with our_options := assocSet neg.our_options opt true },
     TelnetSequence.create_command TelnetCommand.WILL opt ++ send_window_size neg)
  else (neg, [])

/-- The `_option_handlers` dict installed by `__post_init__` holds exactly
TERMINAL_TYPE and NAWS. -/
def has_option_handler (opt : Nat) : Bool :=
  opt == TelnetOption.TERMINAL_TYPE || opt == TelnetOption.NAWS

/-- Dispatch through `_option_handlers[option](option, cmd, data)`. -/
def call_option_handler (neg : TelnetNegotiator) (opt cmd : Nat) (data : List Nat) :
    TelnetNegotiator × List Nat :=
  if opt = TelnetOption.TERMINAL_TYPE then handle_terminal_type neg opt cmd data
  else handle_window_size neg opt cmd data

/-- `TelnetNegotiator._handle_negotiation`: delegate to a per-option handler
when one is registered, otherwise apply the accept/reject policy and update
the option maps. -/
def handle_negotiation (neg : TelnetNegotiator) (cmd opt : Nat) :
    TelnetNegotiator × List Nat :=
  if has_option_handler opt then call_option_handler neg opt cmd []
  else if cmd = TelnetCommand.DO ∨ cmd = TelnetCommand.WILL then
    if should_accept_option opt then
      (update_option_state neg opt cmd true, NegotiationResponse.accept cmd opt)
    else
      (update_option_state neg opt cmd false, NegotiationResponse.reject cmd opt)
  else
    (update_option_state neg opt cmd false, NegotiationResponse.accept cmd opt)

/-- `TelnetNegotiator._handle_subnegotiation`: call the per-option handler
with command SB only when one is registered and the payload is non-empty. -/
def handle_subnegotiation (neg : TelnetNegotiator) (opt : Nat) (data : List Nat) :
    TelnetNegotiator × List Nat :=
  if has_option_handler opt ∧ data ≠ [] then
    call_option_handler neg opt TelnetCommand.SB data
  else (neg, [])

/-! ## Telnet byte-stream parser (negotiate.py, `handle_command` and the
`_process_*_state` helpers) -/

/-- The per-byte result of `_process_byte`: a reply frame (`bytes`), a user
data byte (`int`), or nothing (`None`). -/
inductive StepOut
  | reply (r : List Nat)
  | dataByte (b : Nat)
  | silent
deriving DecidableEq, Repr

/-- The local parser variables of `handle_command`: current state, in-flight
command, last option, subnegotiation option and payload buffer. -/
structure PState where
  st : ParserState
  cmd : Nat
  opt : Nat
  subneg_option : Nat
  subneg_data : List Nat
deriving DecidableEq, Repr

/-- The initial parser variables of a `handle_command` call:
`state = DATA, cmd = 0, opt = 0, subneg_option = 0, subneg_data = b""`. -/
def pInit : PState := ⟨ParserState.DATA, 0, 0, 0, []⟩

/-- `TelnetNegotiator._process_data_state`. -/
def process_data_state (p : PState) (byte : Nat) : PState × StepOut :=
  if byte = TelnetCommand.IAC then ({ p with st := ParserState.IAC }, StepOut.silent)
  else ({ p with st := ParserState.DATA }, StepOut.dataByte byte)

/-- `TelnetNegotiator._process_iac_state`. -/
def process_iac_state (p : PState) (byte : Nat) : PState × StepOut :=
  if byte = TelnetCommand.IAC then
    ({ p with st := ParserState.DATA }, StepOut.dataByte byte)
  else if byte = TelnetCommand.SB then
    ({ p with st := ParserState.SUBNEG, subneg_data := [] }, StepOut.silent)
  else if TelnetCommand.is_negotiation byte then
    ({ p with st := ParserState.COMMAND, cmd := byte }, StepOut.silent)
  else ({ p with st := ParserState.DATA }, StepOut.silent)

/-- `TelnetNegotiator._process_command_state`. -/
def process_command_state (neg : TelnetNegotiator) (p : PState) (byte : Nat) :
    TelnetNegotiator × PState × StepOut :=
  let r := handle_negotiation neg p.cmd byte
  (r.1, { p with st := ParserState.DATA, opt := byte }, StepOut.reply r.2)

/-- `TelnetNegotiator._process_subneg_state`.  Note the source guards on the
payload buffer being empty (`if not subneg_data`), not on "no option yet". -/
def process_subneg_state (p : PState) (byte : Nat) : PState × StepOut :=
  if byte = TelnetCommand.IAC then ({ p with st := ParserState.SUBNEG_IAC }, StepOut.silent)
  else if p.subneg_data = [] then
    ({ p with st := ParserState.SUBNEG, subneg_option := byte }, StepOut.silent)
  else
    ({ p with st := ParserState.SUBNEG, subneg_data := p.subneg_data ++ [byte] }, StepOut.silent)

/-- `TelnetNegotiator._process_subneg_iac_state`. -/
def process_subneg_iac_state (neg : TelnetNegotiator) (p : PState) (byte : Nat) :
    TelnetNegotiator × PState × StepOut :=
  if byte = TelnetCommand.SE then
    let r := handle_subnegotiation neg p.subneg_option p.subneg_data
    (r.1, { p with st := ParserState.DATA }, StepOut.reply r.2)
  else
    (neg,
     { p with
        st := ParserState.SUBNEG
        subneg_data := p.subneg_data ++ [TelnetCommand.IAC, byte] },
     StepOut.silent)

/-- `TelnetNegotiator._process_byte`: dispatch on the parser state. -/
def process_byte (neg : TelnetNegotiator) (byte : Nat) (p : PState) :
    TelnetNegotiator × PState × StepOut :=
  match p.st with
  | ParserState.DATA => let r := process_data_state p byte; (neg, r.1, r.2)
  | ParserState.IAC => let r := process_iac_state p byte; (neg, r.1, r.2)
  | ParserState.COMMAND => process_command_state neg p byte
  | ParserState.SUBNEG => let r := process_subneg_state p byte; (neg, r.1, r.2)
  | ParserState.SUBNEG_IAC => process_subneg_iac_state neg p byte

/-- The loop body of `handle_command` over a byte list: thread the negotiator
and parser variables, collect data bytes and non-empty reply frames in order. -/
def runBytes : TelnetNegotiator → PState → List Nat →
    TelnetNegotiator × PState × List Nat × List (List Nat)
  | neg, p, [] => (neg, p, [], [])
  | neg, p, b :: rest =>
    let s := process_byte neg b p
    let r := runBytes s.1 s.2.1 rest
    match s.2.2 with
    | StepOut.dataByte x => (r.1, r.2.1, x :: r.2.2.1, r.2.2.2)
    | StepOut.reply resp =>
      (r.1, r.2.1, r.2.2.1, if resp = [] then r.2.2.2 else resp :: r.2.2.2)
    | StepOut.silent => (r.1, r.2.1, r.2.2.1, r.2.2.2)

/-- `TelnetNegotiator.handle_command`: parse a chunk starting from the fresh
parser variables (the source re-initialises `state = ParserState.DATA` on
every call) and return the updated negotiator, the user data bytes, and the
list of reply frames. -/
def handle_command (neg : TelnetNegotiator) (data : List Nat) :
    TelnetNegotiator × List Nat × List (List Nat) :=
  let r := runBytes neg pInit data
  (r.1, r.2.2.1, r.2.2.2)

/-- The final value of the parser-state variable after `handle_command`
consumes `data` (the source discards it; exposed here to state when a chunk
boundary is safe). -/
def parse_final_state (neg : TelnetNegotiator) (data : List Nat) : ParserState :=
  (runBytes neg pInit data).2.1.st

/-- `TelnetNegotiator.get_initial_negotiation`: WILL SGA, DO SGA, WONT ECHO,
WILL TERMINAL_TYPE, WILL NAWS. -/
def get_initial_negotiation : List Nat :=
  TelnetSequence.create_command TelnetCommand.WILL TelnetOption.SGA ++
  TelnetSequence.create_command TelnetCommand.DO TelnetOption.SGA ++
  TelnetSequence.create_command TelnetCommand.WONT TelnetOption.ECHO ++
  TelnetSequence.create_command TelnetCommand.WILL TelnetOption.TERMINAL_TYPE ++
  TelnetSequence.create_command TelnetCommand.WILL TelnetOption.NAWS

/-! ## Telnet client (src/network_tools/clients/telnet/client.py) -/

/-- The IAC-escaping loop of `AsyncTelnetClient.write`: each 0xFF byte is
written twice, every other byte once (the source's no-IAC fast path writes
the data unchanged, which produces the same wire bytes). -/
def escape_iac : List Nat → List Nat
  | [] => []
  | b :: rest =>
    if b = TelnetCommand.IAC then b :: TelnetCommand.IAC :: escape_iac rest
    else b :: escape_iac rest

/-- The observable connection state of an `AsyncTelnetClient`: whether the
reader and writer endpoints are set, the embedded negotiator, and the frames
written to the wire so far. -/
structure TelnetClient where
  hasReader : Bool
  hasWriter : Bool
  negotiator : TelnetNegotiator
  written : List (List Nat)
deriving Repr

/-- The outcome of one awaited `reader.read` under `wait_for`: either the
timeout fired or a chunk of raw bytes arrived. -/
inductive ReadOutcome
  | timeout
  | gotBytes (raw : List Nat)
deriving DecidableEq, Repr

/-- `AsyncTelnetClient._process_negotiation`: feed a chunk through the
parser, write all reply frames as one concatenated frame when the writer is
set, and return the user data. -/
def process_negotiation (c : TelnetClient) (data : List Nat) : TelnetClient × List Nat :=
  if data = [] then (c, [])
  else
    let r := handle_command c.negotiator data
    let c1 := { c with negotiator := r.1 }
    if r.2.2 ≠ [] ∧ c1.hasWriter then
      ({ c1 with written := c1.written ++ [r.2.2.flatten] }, r.2.1)
    else (c1, r.2.1)

/-- `AsyncTelnetClient.read`: empty bytes when the reader is unset, empty
bytes when `wait_for` times out, otherwise the parsed user data of the raw
chunk (replies written as a side effect). -/
def telnet_read (c : TelnetClient) (o : ReadOutcome) : TelnetClient × List Nat :=
  if c.hasReader = false then (c, [])
  else
    match o with
    | ReadOutcome.timeout => (c, [])
    | ReadOutcome.gotBytes raw => process_negotiation c raw

/-- `AsyncTelnetClient.write`: return immediately when the writer is unset,
otherwise put the IAC-escaped payload on the wire. -/
def telnet_write (c : TelnetClient) (data : List Nat) : TelnetClient :=
  if c.hasWriter = false then c
  else { c with written := c.written ++ [escape_iac data] }

/-- `AsyncTelnetClient.send_command`: write the encoded command followed by
the newline bytes. -/
def send_command (c : TelnetClient) (command newline : List Nat) : TelnetClient :=
  telnet_write c (command ++ newline)

/-- The error taxonomy of the client read paths: deadline expiry in
`read_until` (`TimeoutError`) and a malformed regex pattern (`re.error`). -/
inductive TelnetErr
  | timeoutErr
  | patternErr
deriving DecidableEq, Repr

/-- The `while` loop of `AsyncTelnetClient.read_until`: each iteration spends
one scheduled read outcome (the monotonic deadline bounds the number of
iterations); empty chunks only consume time, non-empty chunks grow the buffer,
a regex match returns the whole buffer, and deadline expiry raises. -/
def read_until_loop (c : TelnetClient) (m : List Nat → Bool) (buffer : List Nat) :
    List ReadOutcome → TelnetClient × Except TelnetErr (List Nat)
  | [] => (c, Except.error TelnetErr.timeoutErr)
  | o :: rest =>
    let r := telnet_read c o
    if r.2 = [] then read_until_loop r.1 m buffer rest
    else
      let buf := buffer ++ r.2
      if m buf then (r.1, Except.ok buf)
      else read_until_loop r.1 m buf rest

/-- `AsyncTelnetClient.read_until`: empty result when the reader is unset;
`re.error` when the pattern does not compile (modelled as `none`); otherwise
the accumulation loop with the compiled match predicate. -/
def read_until (c : TelnetClient) (pat : Option (List Nat → Bool))
    (sched : List ReadOutcome) : TelnetClient × Except TelnetErr (List Nat) :=
  if c.hasReader = false then (c, Except.ok [])
  else
    match pat with
    | none => (c, Except.error TelnetErr.patternErr)
    | some m => read_until_loop c m [] sched

/-! ## Protocol detector (src/network_tools/detector.py) -/

/-- `DetectionResult` from src/network_tools/types.py: protocol tag, optional
banner bytes, optional extra-info map (values kept as byte strings). -/
structure DetectionResult where
  protocol : String
  banner : Option (List Nat) := none
  extra_info : Option (List (String × List Nat)) := none
deriving DecidableEq, Repr

/-- Ownership bookkeeping for the detector: the `_current_reader/_current_writer`
slot (by stream id), how many streams `open_connection` has produced, and
which stream ids have been closed. -/
structure DetectorSt where
  currentConn : Option Nat
  openedCount : Nat
  closed : List Nat
deriving DecidableEq, Repr

/-- The detector state before `detect` runs: no stream opened or held. -/
def initDetectorSt : DetectorSt := ⟨none, 0, []⟩

/-- A successful `asyncio.open_connection`: a fresh stream id is stored in the
`_current_reader/_current_writer` slot. -/
def open_conn (st : DetectorSt) : DetectorSt :=
  { currentConn := some st.openedCount, openedCount := st.openedCount + 1, closed := st.closed }

/-- `AsyncProtocolDetector._close_connection`: close and drop the held stream
if any (errors during close are swallowed). -/
def close_connection (st : DetectorSt) : DetectorSt :=
  match st.currentConn with
  | none => st
  | some i => { currentConn := none, openedCount := st.openedCount, closed := st.closed ++ [i] }

/-- The outcome of the passive `reader.read(1024)` under `wait_for`: timeout
(caught), a completed read (possibly empty on EOF), or a raised OS error
(propagated to `detect`). -/
inductive NetRead
  | timeout
  | gotBytes (raw : List Nat)
  | netErr (msg : List Nat)
deriving DecidableEq, Repr

/-- The network environment of one `detect(host, port)` call: whether the
passive `open_connection` raises, what the passive read yields, whether the
TLS handshake completes, whether the HTTP probe's `open_connection` raises,
and what the HTTP HEAD probe reads (`none` for a caught timeout/OS error). -/
structure DetectEnv where
  passiveOpen : Option (List Nat)
  passiveRead : NetRead
  tlsOk : Bool
  httpOpen : Option (List Nat)
  httpResp : Option (List Nat)
deriving Repr

/-- ASCII bytes of the banner test string "SSH-". -/
def sshPre : List Nat := [83, 83, 72, 45]

/-- ASCII bytes of the banner test string "220 ". -/
def ftpPre : List Nat := [50, 50, 48, 32]

/-- ASCII bytes of the probe test string "HTTP/". -/
def httpPat : List Nat := [72, 84, 84, 80, 47]

/-- ASCII bytes of "HTTP/1.0". -/
def http10Pat : List Nat := httpPat ++ [49, 46, 48]

/-- ASCII bytes of "HTTP/2". -/
def http2Pat : List Nat := httpPat ++ [50]

/-- Python `s.startswith(pre)` on byte strings. -/
def listStartsWith : List Nat → List Nat → Bool
  | _, [] => true
  | [], _ :: _ => false
  | a :: s, b :: p => a == b && listStartsWith s p

/-- Python `pat in s` on byte strings: `pat` occurs as a contiguous run. -/
def listContainsSeq (pat : List Nat) : List Nat → Bool
  | [] => listStartsWith [] pat
  | a :: t => listStartsWith (a :: t) pat || listContainsSeq pat t

/-- Python `bytes.decode("ascii", errors="ignore")`: keep the bytes below
128 (represented still as bytes). -/
def decode_ascii_ignore (raw : List Nat) : List Nat :=
  raw.filter (fun b => decide (b < 128))

/-- Python `str.isspace` characters within ASCII. -/
def py_space (b : Nat) : Bool :=
  b == 32 || b == 9 || b == 10 || b == 13 || b == 11 || b == 12

/-- Python `str.strip()`: drop leading and trailing whitespace. -/
def py_strip (l : List Nat) : List Nat :=
  ((l.dropWhile py_space).reverse.dropWhile py_space).reverse

/-- The banner classification of `_passive_detection` for a completed read:
SSH, FTP, Telnet (any 0xFF present in non-empty data), or UNKNOWN_BANNER,
each carrying the read bytes as banner. -/
def classify_bytes (raw : List Nat) : DetectionResult :=
  if listStartsWith raw sshPre then
    { protocol := "SSH", banner := some raw
      extra_info := some [("version", py_strip (decode_ascii_ignore raw))] }
  else if listStartsWith raw ftpPre then
    { protocol := "FTP", banner := some raw }
  else if raw ≠ [] ∧ raw.all (fun b => decide (b < 256)) ∧ raw.any (fun b => b == 255) then
    { protocol := "TELNET", banner := some raw }
  else
    { protocol := "UNKNOWN_BANNER", banner := some raw }

/-- `AsyncProtocolDetector._passive_detection`: open the stream, store it in
the slot, and classify the first read; a read timeout yields UNKNOWN, raised
errors propagate as `Except.error`. -/
def passive_detection (env : DetectEnv) (st : DetectorSt) :
    DetectorSt × Except (List Nat) DetectionResult :=
  match env.passiveOpen with
  | some msg => (st, Except.error msg)
  | none =>
    let st1 := open_conn st
    match env.passiveRead with
    | NetRead.netErr msg => (st1, Except.error msg)
    | NetRead.timeout => (st1, Except.ok { protocol := "UNKNOWN" })
    | NetRead.gotBytes raw => (st1, Except.ok (classify_bytes raw))

/-- The HTTP classification of `_is_http` for a completed HEAD response:
protocol HTTP with the response bytes as banner and the extracted version,
or UNKNOWN when "HTTP/" does not occur. -/
def http_result_of_resp (resp : List Nat) : DetectionResult :=
  if listContainsSeq httpPat resp then
    { protocol := "HTTP", banner := some resp
      extra_info := some [("version",
        if listContainsSeq http10Pat resp then [49, 46, 48]
        else if listContainsSeq http2Pat resp then [50]
        else [49, 46, 49])] }
  else { protocol := "UNKNOWN" }

/-- `AsyncProtocolDetector._is_http`: open a fresh stream into the slot (a
failed open propagates), send the HEAD request, and classify the response;
caught timeouts and network errors yield UNKNOWN. -/
def is_http (env : DetectEnv) (st : DetectorSt) :
    DetectorSt × Except (List Nat) DetectionResult :=
  match env.httpOpen with
  | some msg => (st, Except.error msg)
  | none =>
    let st1 := open_conn st
    match env.httpResp with
    | none => (st1, Except.ok { protocol := "UNKNOWN" })
    | some resp => (st1, Except.ok (http_result_of_resp resp))

/-- `AsyncProtocolDetector._active_detection`: close the held stream, try the
TLS handshake (success stores the TLS stream in the slot and yields HTTPS),
then the HTTP probe; a non-HTTP probe result is reported as UNKNOWN. -/
def active_detection (env : DetectEnv) (st : DetectorSt) :
    DetectorSt × Except (List Nat) DetectionResult :=
  let st1 := close_connection st
  if env.tlsOk then (open_conn st1, Except.ok { protocol := "HTTPS" })
  else
    match is_http env st1 with
    | (st2, Except.error msg) => (st2, Except.error msg)
    | (st2, Except.ok r) =>
      if r.protocol = "HTTP" then (st2, Except.ok r)
      else (st2, Except.ok { protocol := "UNKNOWN" })

/-- The ERROR result built in `detect`'s exception handler: the message is
stored under the "error" key of the extras map. -/
def mk_error_result (msg : List Nat) : DetectionResult :=
  { protocol := "ERROR", extra_info := some [("error", msg)] }

/-- `AsyncProtocolDetector.detect`: passive phase first, active phase only
on UNKNOWN; any raised exception is caught, the held stream is closed, and
an ERROR result is returned — `detect` itself is total. -/
def detect (env : DetectEnv) : DetectorSt × DetectionResult :=
  match passive_detection env initDetectorSt with
  | (st, Except.error msg) => (close_connection st, mk_error_result msg)
  | (st, Except.ok r) =>
    if r.protocol = "UNKNOWN" then
      match active_detection env st with
      | (st2, Except.error msg) => (close_connection st2, mk_error_result msg)
      | (st2, Except.ok r2) => (st2, r2)
    else (st, r)

/-- The stage at which the classification pipeline raises, if any: mirrors
the positions of the `try` block in `detect`. -/
def classification_error (env : DetectEnv) : Option (List Nat) :=
  match passive_detection env initDetectorSt with
  | (_, Except.error msg) => some msg
  | (st, Except.ok r) =>
    if r.protocol = "UNKNOWN" then
      match active_detection env st with
      | (_, Except.error msg) => some msg
      | (_, Except.ok _) => none
    else none

/-! ## Parser lemmas -/

/-- A parser record already in the DATA state is unchanged by re-writing the
DATA state into it. -/
theorem PState.set_data_eq (p : PState) (hp : p.st = ParserState.DATA) :
    { p with st := ParserState.DATA } = p := by
  cases p
  simp_all

/-- Running the parser over a concatenation threads the negotiator and parser
variables and concatenates the collected data and replies. -/
theorem runBytes_append (neg : TelnetNegotiator) (p : PState) (s1 s2 : List Nat) :
    runBytes neg p (s1 ++ s2) =
      ((runBytes (runBytes neg p s1).1 (runBytes neg p s1).2.1 s2).1,
       (runBytes (runBytes neg p s1).1 (runBytes neg p s1).2.1 s2).2.1,
       (runBytes neg p s1).2.2.1 ++
         (runBytes (runBytes neg p s1).1 (runBytes neg p s1).2.1 s2).2.2.1,
       (runBytes neg p s1).2.2.2 ++
         (runBytes (runBytes neg p s1).1 (runBytes neg p s1).2.1 s2).2.2.2) := by
  induction s1 generalizing neg p with
  | nil => simp [runBytes]
  | cons b rest ih =>
    simp only [List.cons_append, runBytes]
    cases (process_byte neg b p).2.2 with
    | dataByte x => simp [ih]
    | reply resp =>
      by_cases hr : resp = [] <;> simp [hr, ih]
    | silent => simp [ih]

/-- Bytes other than IAC are copied through unchanged from the DATA state. -/
theorem runBytes_no_iac (neg : TelnetNegotiator) (p : PState) (s : List Nat)
    (hp : p.st = ParserState.DATA) (hs : ∀ b ∈ s, b ≠ 255) :
    runBytes neg p s = (neg, p, s, []) := by
  induction s with
  | nil => rfl
  | cons b rest ih =>
    have hb : b ≠ 255 := hs b (List.mem_cons_self b rest)
    have hrest : ∀ x ∈ rest, x ≠ 255 := fun x hx => hs x (List.mem_cons_of_mem b hx)
    have hpe := PState.set_data_eq p hp
    simp [runBytes, process_byte, hp, process_data_state, TelnetCommand.IAC, hb, hpe, ih hrest]

/-- An IAC-escaped payload parses back to the original bytes with no replies,
leaving the negotiator and the DATA-state parser record untouched. -/
theorem runBytes_escape (neg : TelnetNegotiator) (p : PState) (d : List Nat)
    (hp : p.st = ParserState.DATA) :
    runBytes neg p (escape_iac d) = (neg, p, d, []) := by
  induction d with
  | nil => rfl
  | cons b rest ih =>
    have hpe := PState.set_data_eq p hp
    by_cases hb : b = 255
    · subst hb
      simp [escape_iac, runBytes, process_byte, hp, process_data_state, process_iac_state,
        TelnetCommand.IAC, TelnetCommand.SB, hpe, ih]
    · simp [escape_iac, runBytes, process_byte, hp, process_data_state,
        TelnetCommand.IAC, hb, hpe, ih]

/-- An empty subnegotiation payload produces no reply and leaves the
negotiator unchanged, whatever the recorded option. -/
theorem handle_subnegotiation_nil (neg : TelnetNegotiator) (opt : Nat) :
    handle_subnegotiation neg opt [] = (neg, []) := by
  simp [handle_subnegotiation]

/-- A subnegotiation payload that starts with the IAC byte produces no reply
and leaves the negotiator unchanged, whatever the recorded option: the
TERMINAL_TYPE handler demands a leading SEND byte 1 and the NAWS handler only
reacts to DO. -/
theorem handle_subnegotiation_head_iac (neg : TelnetNegotiator) (opt : Nat) (rest : List Nat) :
    handle_subnegotiation neg opt (255 :: rest) = (neg, []) := by
  by_cases h24 : opt = 24
  · simp [handle_subnegotiation, call_option_handler, handle_terminal_type,
      TelnetOption.TERMINAL_TYPE, TelnetCommand.DO, TelnetCommand.SB, h24]
  · by_cases h31 : opt = 31
    · simp [handle_subnegotiation, call_option_handler, handle_window_size, has_option_handler,
        TelnetOption.TERMINAL_TYPE, TelnetOption.NAWS, TelnetCommand.DO, TelnetCommand.SB,
        h24, h31]
    · simp [handle_subnegotiation, has_option_handler,
        TelnetOption.TERMINAL_TYPE, TelnetOption.NAWS, h24, h31]

/-- Simulation relation between two parser records that makes the rest of a
run produce identical observable output: same state, same in-flight command
when one is pending, and in subnegotiation the same buffer together with
either the same recorded option or a buffer (empty or IAC-headed) on which
the recorded option cannot influence the reply. -/
def simR (p q : PState) : Prop :=
  p.st = q.st ∧
  (p.st = ParserState.COMMAND → p.cmd = q.cmd) ∧
  (p.st = ParserState.SUBNEG ∨ p.st = ParserState.SUBNEG_IAC →
    p.subneg_data = q.subneg_data ∧
      (p.subneg_option = q.subneg_option ∨ p.subneg_data = [] ∨
        p.subneg_data.head? = some 255))

/-- One parser step preserves the simulation relation and produces the same
negotiator and the same observable output on both sides. -/
theorem process_byte_sim (neg : TelnetNegotiator) (b : Nat) (p q : PState) (h : simR p q) :
    (process_byte neg b p).1 = (process_byte neg b q).1 ∧
    (process_byte neg b p).2.2 = (process_byte neg b q).2.2 ∧
    simR (process_byte neg b p).2.1 (process_byte neg b q).2.1 := by
  obtain ⟨hst, hcmd, hsub⟩ := h
  cases hps : p.st with
  | DATA =>
    have hqs : q.st = ParserState.DATA := by rw [← hst, hps]
    by_cases hb : b = 255 <;>
      simp [process_byte, hps, hqs, process_data_state, TelnetCommand.IAC, hb, simR]
  | IAC =>
    have hqs : q.st = ParserState.IAC := by rw [← hst, hps]
    by_cases hb : b = 255
    · simp [process_byte, hps, hqs, process_iac_state, TelnetCommand.IAC, hb, simR]
    · by_cases hsb : b = 250
      · simp [process_byte, hps, hqs, process_iac_state, TelnetCommand.IAC, TelnetCommand.SB,
          hb, hsb, simR]
      · by_cases hneg : TelnetCommand.is_negotiation b = true <;>
          simp [process_byte, hps, hqs, process_iac_state, TelnetCommand.IAC, TelnetCommand.SB,
            hb, hsb, hneg, simR]
  | COMMAND =>
    have hqs : q.st = ParserState.COMMAND := by rw [← hst, hps]
    have hc : p.cmd = q.cmd := hcmd hps
    simp [process_byte, hps, hqs, process_command_state, hc, simR]
  | SUBNEG =>
    have hqs : q.st = ParserState.SUBNEG := by rw [← hst, hps]
    obtain ⟨hd, hopt⟩ := hsub (Or.inl hps)
    by_cases hb : b = 255
    · simp [process_byte, hps, hqs, process_subneg_state, TelnetCommand.IAC, hb, simR, hd]
      rcases hopt with h1 | h1 | h1
      · exact Or.inl h1
      · right; simp [hd ▸ h1]
      · right; simp [hd ▸ h1]
    · by_cases hemp : p.subneg_data = []
      · have hqemp : q.subneg_data = [] := by rw [← hd, hemp]
        simp [process_byte, hps, hqs, process_subneg_state, TelnetCommand.IAC, hb, hemp, hqemp,
          simR]
      · have hqemp : q.subneg_data ≠ [] := by rw [← hd]; exact hemp
        simp [process_byte, hps, hqs, process_subneg_state, TelnetCommand.IAC, hb, hemp, hqemp,
          simR, hd]
        rcases hopt with h1 | h1 | h1
        · exact Or.inl h1
        · exact absurd h1 hemp
        · right; simp [hd ▸ h1]
  | SUBNEG_IAC =>
    have hqs : q.st = ParserState.SUBNEG_IAC := by rw [← hst, hps]
    obtain ⟨hd, hopt⟩ := hsub (Or.inr hps)
    by_cases hb : b = 240
    · have hr : handle_subnegotiation neg p.subneg_option p.subneg_data =
          handle_subnegotiation neg q.subneg_option q.subneg_data := by
        rcases hopt with h1 | h1 | h1
        · rw [h1, hd]
        · rw [h1, ← hd, h1, handle_subnegotiation_nil, handle_subnegotiation_nil]
        · cases hpd : p.subneg_data with
          | nil => simp [hpd] at h1
          | cons a t =>
            rw [hpd] at h1
            simp only [List.head?] at h1
            cases h1
            rw [← hd, hpd, handle_subnegotiation_head_iac, handle_subnegotiation_head_iac]
      simp [process_byte, hps, hqs, process_subneg_iac_state, TelnetCommand.SE, hb, hr, simR]
    · simp [process_byte, hps, hqs, process_subneg_iac_state, TelnetCommand.SE,
        TelnetCommand.IAC, hb, simR, hd]
      rcases hopt with h1 | h1 | h1
      · exact Or.inl h1
      · right; simp [hd ▸ h1]
      · right; simp [hd ▸ h1]

/-- Running the parser from two related records over the same bytes gives the
same negotiator, the same data, the same replies, and related final records. -/
theorem runBytes_sim (s : List Nat) (neg : TelnetNegotiator) (p q : PState) (h : simR p q) :
    (runBytes neg p s).1 = (runBytes neg q s).1 ∧
    (runBytes neg p s).2.2 = (runBytes neg q s).2.2 ∧
    simR (runBytes neg p s).2.1 (runBytes neg q s).2.1 := by
  induction s generalizing neg p q with
  | nil => exact ⟨rfl, rfl, h⟩
  | cons b rest ih =>
    obtain ⟨h1, h2, h3⟩ := process_byte_sim neg b p q h
    rcases hp : process_byte neg b p with ⟨n1, p1, o1⟩
    rcases hq : process_byte neg b q with ⟨n2, q1, o2⟩
    rw [hp, hq] at h1 h2 h3
    dsimp only at h1 h2 h3
    subst h1
    subst h2
    obtain ⟨g1, g2, g3⟩ := ih n1 p1 q1 h3
    rcases hrp : runBytes n1 p1 rest with ⟨m1, pf, dp, rp⟩
    rcases hrq : runBytes n1 q1 rest with ⟨m2, qf, dq, rq⟩
    rw [hrp, hrq] at g1 g2 g3
    dsimp only at g1 g2 g3
    have gd : dp = dq := congrArg Prod.fst g2
    have gr : rp = rq := congrArg Prod.snd g2
    subst g1
    subst gd
    subst gr
    simp only [runBytes, hp, hq, hrp, hrq]
    cases o1 with
    | dataByte x => exact ⟨rfl, rfl, g3⟩
    | reply resp => exact ⟨rfl, rfl, g3⟩
    | silent => exact ⟨rfl, rfl, g3⟩

/-! ## Claims about the Telnet parser -/

/-- C1 (counterexample): splitting the negotiation `IAC DO SGA` after the IAC
byte changes the parse.  One-shot parsing of `FF FD 03` yields no data and the
reply `FF FB 03`; feeding `FF` and then `FD 03` yields the user data `FD 03`
and no reply, because `handle_command` forgets the IAC state between calls. -/
theorem split_iac_chunk_parses_differently :
    (let a := handle_command defaultNegotiator [255]
     let b := handle_command a.1 [253, 3]
     (a.2.1 ++ b.2.1, a.2.2 ++ b.2.2)) ≠
      ((handle_command defaultNegotiator [255, 253, 3]).2.1,
       (handle_command defaultNegotiator [255, 253, 3]).2.2) := by
  decide

/-- C1 (amended): `handle_command` re-initialises its parser variables to the
DATA state on every call, so state does not persist across chunks and a split
IAC sequence can be lost; whenever the first chunk's own parse ends in the
DATA state (in particular whenever no IAC sequence straddles the boundary),
feeding the two chunks separately agrees with feeding the whole string in one
call: the user data and reply sequences concatenate. -/
theorem handle_command_chunk_split (neg : TelnetNegotiator) (s1 s2 : List Nat)
    (h : parse_final_state neg s1 = ParserState.DATA) :
    handle_command neg (s1 ++ s2) =
      ((handle_command (handle_command neg s1).1 s2).1,
       (handle_command neg s1).2.1 ++ (handle_command (handle_command neg s1).1 s2).2.1,
       (handle_command neg s1).2.2 ++ (handle_command (handle_command neg s1).1 s2).2.2) := by
  have h0 : (runBytes neg pInit s1).2.1.st = ParserState.DATA := h
  have hsim : simR (runBytes neg pInit s1).2.1 pInit := by
    refine ⟨by rw [h0]; rfl, ?_, ?_⟩
    · intro hc; rw [h0] at hc; cases hc
    · intro hc; rw [h0] at hc; rcases hc with hc | hc <;> cases hc
  obtain ⟨e1, e2, _⟩ :=
    runBytes_sim s2 (runBytes neg pInit s1).1 (runBytes neg pInit s1).2.1 pInit hsim
  have ed := congrArg Prod.fst e2
  have er := congrArg Prod.snd e2
  simp only [handle_command, runBytes_append neg pInit s1 s2]
  rw [e1, ed, er]

/-- C1 (witness): a chunk boundary after the plain byte `a` is safe — feeding
`61` and then `FF FD 03` agrees with feeding `61 FF FD 03` at once. -/
theorem handle_command_chunk_split_witness :
    parse_final_state defaultNegotiator [97] = ParserState.DATA ∧
    handle_command defaultNegotiator ([97] ++ [255, 253, 3]) =
      ((handle_command (handle_command defaultNegotiator [97]).1 [255, 253, 3]).1,
       (handle_command defaultNegotiator [97]).2.1 ++
         (handle_command (handle_command defaultNegotiator [97]).1 [255, 253, 3]).2.1,
       (handle_command defaultNegotiator [97]).2.2 ++
         (handle_command (handle_command defaultNegotiator [97]).1 [255, 253, 3]).2.2) :=
  ⟨by decide, handle_command_chunk_split defaultNegotiator [97] [255, 253, 3] (by decide)⟩

/-- C2 (code evaluation at the failing input): feeding
`FF FD 18 FF FA 18 01 FF F0` (IAC DO TERMINAL_TYPE, then IAC SB TERMINAL_TYPE
SEND IAC SE) to a fresh negotiator yields only the reply `FF FB 18`; the
terminal-type report `FF FA 18 00 56 54 31 30 30 FF F0` claimed by the spec
is never produced, because in SUBNEG state the source checks the payload
buffer for emptiness instead of "no option yet", the buffer never fills, and
the SEND byte 01 overwrites the recorded option. -/
theorem terminal_type_send_goes_unanswered :
    (handle_command defaultNegotiator [255, 253, 24, 255, 250, 24, 1, 255, 240]).2 =
      ([], [[255, 251, 24]]) := by
  decide

/-- C7: the initial negotiation sequence is exactly the 15 bytes
`FF FB 03 FF FD 03 FF FC 01 FF FB 18 FF FB 1F`, i.e. WILL SGA, DO SGA,
WONT ECHO, WILL TERMINAL_TYPE, WILL NAWS concatenated. -/
theorem initial_negotiation_frame :
    get_initial_negotiation =
      [255, 251, 3, 255, 253, 3, 255, 252, 1, 255, 251, 24, 255, 251, 31] := by
  rfl

/-- C8: a chunk without any IAC byte parses to itself with no replies and an
unchanged negotiator. -/
theorem plain_data_parses_unchanged (neg : TelnetNegotiator) (s : List Nat)
    (h : ∀ b ∈ s, b ≠ 255) : handle_command neg s = (neg, s, []) := by
  unfold handle_command
  rw [runBytes_no_iac neg pInit s rfl h]

/-- C8 (witness): the plain bytes `68 69` pass through a fresh negotiator
unchanged. -/
theorem plain_data_parses_unchanged_witness :
    handle_command defaultNegotiator [104, 105] = (defaultNegotiator, [104, 105], []) :=
  plain_data_parses_unchanged defaultNegotiator [104, 105] (by decide)

/-! ## Claims about the Telnet client -/

/-- When the pattern matches nothing, the read_until loop always ends in the
deadline-expiry error, never in a partial buffer. -/
theorem read_until_loop_no_match (m : List Nat → Bool) (hm : ∀ l, m l = false) :
    ∀ (sched : List ReadOutcome) (c : TelnetClient) (buffer : List Nat),
      (read_until_loop c m buffer sched).2 = Except.error TelnetErr.timeoutErr := by
  intro sched
  induction sched with
  | nil => intro c buffer; rfl
  | cons o rest ih =>
    intro c buffer
    by_cases hc : (telnet_read c o).2 = [] <;> simp [read_until_loop, hc, hm, ih]

/-- C5: with a writer attached, `write(d)` puts exactly the IAC-escaped
payload on the wire; the escape doubles every 0xFF byte of `d` and alters no
other byte; and parsing the escaped payload through the Telnet parser yields
user data `d` with no replies, whatever the negotiator state. -/
theorem write_escapes_and_roundtrips (c : TelnetClient) (d : List Nat)
    (h : c.hasWriter = true) :
    (telnet_write c d).written = c.written ++ [escape_iac d] ∧
    escape_iac d = (d.map (fun b => if b = 255 then [b, b] else [b])).flatten ∧
    (∀ neg : TelnetNegotiator, handle_command neg (escape_iac d) = (neg, d, [])) := by
  refine ⟨by simp [telnet_write, h], ?_, ?_⟩
  · induction d with
    | nil => rfl
    | cons b rest ih =>
      by_cases hb : b = 255 <;> simp [escape_iac, TelnetCommand.IAC, hb, ih]
  · intro neg
    unfold handle_command
    rw [runBytes_escape neg pInit d rfl]

/-- C5 (witness): writing `FF 41 FF 42` on a connected client puts
`FF FF 41 FF FF 42` on the wire, and that payload parses back to
`FF 41 FF 42` with no replies. -/
theorem write_escapes_and_roundtrips_witness :
    (telnet_write ⟨true, true, defaultNegotiator, []⟩ [255, 65, 255, 66]).written =
      [] ++ [escape_iac [255, 65, 255, 66]] ∧
    escape_iac [255, 65, 255, 66] =
      (([255, 65, 255, 66] : List Nat).map (fun b => if b = 255 then [b, b] else [b])).flatten ∧
    handle_command defaultNegotiator (escape_iac [255, 65, 255, 66]) =
      (defaultNegotiator, [255, 65, 255, 66], []) := by
  have h := write_escapes_and_roundtrips ⟨true, true, defaultNegotiator, []⟩ [255, 65, 255, 66] rfl
  exact ⟨h.1, h.2.1, h.2.2 defaultNegotiator⟩

/-- C9: with a reader attached, a timed-out `read` returns empty bytes and
the unchanged client (a value, not an exception), while deadline expiry in
`read_until` with a pattern that never matches produces the raised
`TimeoutError`, not the partial buffer. -/
theorem read_timeout_soft_read_until_hard (c : TelnetClient) (m : List Nat → Bool)
    (sched : List ReadOutcome) (h : c.hasReader = true) :
    telnet_read c ReadOutcome.timeout = (c, []) ∧
    ((∀ l, m l = false) →
      (read_until c (some m) sched).2 = Except.error TelnetErr.timeoutErr) := by
  constructor
  · simp [telnet_read, h]
  · intro hm
    simp [read_until, h, read_until_loop_no_match m hm sched]

/-- C9 (witness): on a concrete connected client, a timed-out read returns
empty bytes, and a read_until whose pattern never matches raises the timeout
error even though a chunk `61` was received. -/
theorem read_timeout_soft_read_until_hard_witness :
    telnet_read ⟨true, true, defaultNegotiator, []⟩ ReadOutcome.timeout =
      (⟨true, true, defaultNegotiator, []⟩, []) ∧
    (read_until ⟨true, true, defaultNegotiator, []⟩ (some (fun _ => false))
        [ReadOutcome.gotBytes [97]]).2 = Except.error TelnetErr.timeoutErr := by
  have h := read_timeout_soft_read_until_hard ⟨true, true, defaultNegotiator, []⟩
    (fun _ => false) [ReadOutcome.gotBytes [97]] rfl
  exact ⟨h.1, h.2 (fun l => rfl)⟩

/-- C10: on a client with neither reader nor writer (never connected, or
closed), `read` returns empty bytes whatever the network would do, and
`write` and `send_command` return with nothing written; none of them can
raise, being total functions into plain values. -/
theorem disconnected_io_is_noop (c : TelnetClient) (o : ReadOutcome)
    (d command newline : List Nat) (hr : c.hasReader = false) (hw : c.hasWriter = false) :
    telnet_read c o = (c, []) ∧ telnet_write c d = c ∧ send_command c command newline = c := by
  refine ⟨?_, ?_, ?_⟩ <;> simp [telnet_read, telnet_write, send_command, hr, hw]

/-- C10 (witness): the no-op behaviour at a concrete disconnected client. -/
theorem disconnected_io_is_noop_witness :
    telnet_read ⟨false, false, defaultNegotiator, []⟩ ReadOutcome.timeout =
      (⟨false, false, defaultNegotiator, []⟩, []) ∧
    telnet_write ⟨false, false, defaultNegotiator, []⟩ [255, 65] =
      ⟨false, false, defaultNegotiator, []⟩ ∧
    send_command ⟨false, false, defaultNegotiator, []⟩ [108, 115] [13, 10] =
      ⟨false, false, defaultNegotiator, []⟩ :=
  disconnected_io_is_noop ⟨false, false, defaultNegotiator, []⟩ ReadOutcome.timeout
    [255, 65] [108, 115] [13, 10] rfl rfl

/-! ## Detector lemmas -/

/-- A completed passive read never classifies as UNKNOWN: each branch yields
SSH, FTP, TELNET or UNKNOWN_BANNER. -/
theorem classify_bytes_ne_unknown (raw : List Nat) :
    (classify_bytes raw).protocol ≠ "UNKNOWN" := by
  unfold classify_bytes
  split_ifs <;> simp

/-- Every completed passive read carries the read bytes as banner. -/
theorem classify_bytes_banner (raw : List Nat) :
    (classify_bytes raw).banner = some raw := by
  unfold classify_bytes
  split_ifs <;> rfl

/-- Passive classification tags are limited to the four banner protocols. -/
theorem classify_bytes_protocol_cases (raw : List Nat) :
    (classify_bytes raw).protocol = "SSH" ∨ (classify_bytes raw).protocol = "FTP" ∨
    (classify_bytes raw).protocol = "TELNET" ∨
    (classify_bytes raw).protocol = "UNKNOWN_BANNER" := by
  unfold classify_bytes
  split_ifs <;> simp

/-- The banner of an HTTP-probe classification is present exactly when the
protocol tag is in the banner-carrying set. -/
theorem http_result_banner_eq (resp : List Nat) :
    (http_result_of_resp resp).banner.isSome =
      (["SSH", "FTP", "TELNET", "UNKNOWN_BANNER", "HTTP"].contains
        (http_result_of_resp resp).protocol) := by
  unfold http_result_of_resp
  split_ifs <;> simp

/-! ## Claims about the protocol detector -/

/-- C3 (counterexample): when the server opens with an SSH banner, `detect`
returns the SSH classification while the stream it opened is still open —
held in the detector's slot, not closed — contradicting the claim that every
classification stream is closed before `detect` returns. -/
theorem ssh_passive_leaves_stream_open :
    (detect ⟨none, NetRead.gotBytes [83, 83, 72, 45, 50, 46, 48], false, none, none⟩).2.protocol
        = "SSH" ∧
    (detect ⟨none, NetRead.gotBytes [83, 83, 72, 45, 50, 46, 48], false, none,
        none⟩).1.openedCount = 1 ∧
    (detect ⟨none, NetRead.gotBytes [83, 83, 72, 45, 50, 46, 48], false, none, none⟩).1.closed
        = [] := by
  decide

/-- C3 (amended): every TCP stream the detector opens during `detect` is, at
return, either already closed (error paths and the passive-to-active
transition close) or still held in the detector's current-connection slot —
positive classifications leave the stream open in the slot for the later
`get_client` handoff or error cleanup; no stream is leaked beyond the slot. -/
theorem detect_streams_closed_or_held (env : DetectEnv) (i : Nat)
    (hi : i < (detect env).1.openedCount) :
    i ∈ (detect env).1.closed ∨ (detect env).1.currentConn = some i := by
  rcases env with ⟨po, pr, tls, ho, hresp⟩
  cases po with
  | some msg =>
    simp [detect, passive_detection, initDetectorSt, close_connection] at hi
  | none =>
    cases pr with
    | netErr msg =>
      simp [detect, passive_detection, open_conn, initDetectorSt, close_connection] at hi ⊢
      omega
    | gotBytes raw =>
      have hne := classify_bytes_ne_unknown raw
      simp [detect, passive_detection, open_conn, initDetectorSt, hne] at hi ⊢
      omega
    | timeout =>
      cases tls with
      | true =>
        simp [detect, passive_detection, active_detection, open_conn, initDetectorSt,
          close_connection] at hi ⊢
        omega
      | false =>
        cases ho with
        | some msg =>
          simp [detect, passive_detection, active_detection, is_http, open_conn,
            initDetectorSt, close_connection] at hi ⊢
          omega
        | none =>
          cases hresp with
          | none =>
            simp [detect, passive_detection, active_detection, is_http, open_conn,
              initDetectorSt, close_connection] at hi ⊢
            omega
          | some resp =>
            by_cases hh : (http_result_of_resp resp).protocol = "HTTP" <;>
              simp [detect, passive_detection, active_detection, is_http, open_conn,
                initDetectorSt, close_connection, hh] at hi ⊢ <;>
              omega

/-- C3 (witness): after a successful TLS probe the held stream id 0 from the
passive phase is closed while the TLS stream id 1 sits in the slot; stream 0
satisfies the closed-or-held property. -/
theorem detect_streams_closed_or_held_witness :
    0 ∈ (detect ⟨none, NetRead.timeout, true, none, none⟩).1.closed ∨
      (detect ⟨none, NetRead.timeout, true, none, none⟩).1.currentConn = some 0 :=
  detect_streams_closed_or_held ⟨none, NetRead.timeout, true, none, none⟩ 0 (by decide)

/-- C4 (counterexample): with a silent server and a successful HTTP HEAD
probe, `detect` returns an active-phase HTTP result that does carry a banner
(the probe response), contradicting the claim that only passive results of
non-empty server-initiated data have a banner. -/
theorem http_probe_result_carries_banner :
    (detect ⟨none, NetRead.timeout, false, none,
        some [72, 84, 84, 80, 47, 49, 46, 48, 32, 50, 48, 48]⟩).2.protocol = "HTTP" ∧
    (detect ⟨none, NetRead.timeout, false, none,
        some [72, 84, 84, 80, 47, 49, 46, 48, 32, 50, 48, 48]⟩).2.banner ≠ none := by
  decide

/-- C4 (amended): the banner of a `detect` result is present exactly when the
result carries bytes read during classification — the passive tags SSH, FTP,
TELNET and UNKNOWN_BANNER (from a completed read, possibly empty) and the
active HTTP tag (the HEAD response); HTTPS, UNKNOWN and ERROR results carry
no banner. -/
theorem banner_present_iff_read_bytes (env : DetectEnv) :
    (detect env).2.banner.isSome =
      (["SSH", "FTP", "TELNET", "UNKNOWN_BANNER", "HTTP"].contains
        (detect env).2.protocol) := by
  rcases env with ⟨po, pr, tls, ho, hresp⟩
  cases po with
  | some msg => simp [detect, passive_detection, mk_error_result]
  | none =>
    cases pr with
    | netErr msg =>
      simp [detect, passive_detection, close_connection, open_conn, initDetectorSt,
        mk_error_result]
    | gotBytes raw =>
      have hne := classify_bytes_ne_unknown raw
      simp [detect, passive_detection, open_conn, initDetectorSt, hne,
        classify_bytes_banner raw]
      rcases classify_bytes_protocol_cases raw with h | h | h | h <;> simp [h]
    | timeout =>
      cases tls with
      | true =>
        simp [detect, passive_detection, active_detection, open_conn, initDetectorSt,
          close_connection]
      | false =>
        cases ho with
        | some msg =>
          simp [detect, passive_detection, active_detection, is_http, open_conn,
            initDetectorSt, close_connection, mk_error_result]
        | none =>
          cases hresp with
          | none =>
            simp [detect, passive_detection, active_detection, is_http, open_conn,
              initDetectorSt, close_connection]
          | some resp =>
            by_cases hh : (http_result_of_resp resp).protocol = "HTTP"
            · simp [detect, passive_detection, active_detection, is_http, open_conn,
                initDetectorSt, close_connection, hh, http_result_banner_eq resp]
            · simp [detect, passive_detection, active_detection, is_http, open_conn,
                initDetectorSt, close_connection, hh]

/-- C6: `detect` is a total function, and whenever the classification
pipeline raises (a failed passive open, an error on the passive read, or a
failed HTTP-probe open), the exception is caught: every stream the detector
opened is closed and the result is ERROR with the exception message stored
under the "error" key of the extras map. -/
theorem detect_catches_classification_errors (env : DetectEnv) (msg : List Nat)
    (h : classification_error env = some msg) :
    (detect env).2 = mk_error_result msg ∧
    ∀ i, i < (detect env).1.openedCount → i ∈ (detect env).1.closed := by
  rcases env with ⟨po, pr, tls, ho, hresp⟩
  cases po with
  | some m =>
    simp [classification_error, passive_detection] at h
    subst h
    constructor
    · simp [detect, passive_detection, initDetectorSt, close_connection]
    · intro i hi
      simp [detect, passive_detection, initDetectorSt, close_connection] at hi
  | none =>
    cases pr with
    | netErr m =>
      simp [classification_error, passive_detection] at h
      subst h
      constructor
      · simp [detect, passive_detection, open_conn, initDetectorSt, close_connection]
      · intro i hi
        simp [detect, passive_detection, open_conn, initDetectorSt, close_connection] at hi ⊢
        omega
    | gotBytes raw =>
      have hne := classify_bytes_ne_unknown raw
      simp [classification_error, passive_detection, hne] at h
    | timeout =>
      cases tls with
      | true =>
        simp [classification_error, passive_detection, active_detection, open_conn,
          initDetectorSt, close_connection] at h
      | false =>
        cases ho with
        | some m =>
          simp [classification_error, passive_detection, active_detection, is_http,
            open_conn, initDetectorSt, close_connection] at h
          subst h
          constructor
          · simp [detect, passive_detection, active_detection, is_http, open_conn,
              initDetectorSt, close_connection]
          · intro i hi
            simp [detect, passive_detection, active_detection, is_http, open_conn,
              initDetectorSt, close_connection] at hi ⊢
            omega
        | none =>
          cases hresp with
          | none =>
            simp [classification_error, passive_detection, active_detection, is_http,
              open_conn, initDetectorSt, close_connection] at h
          | some resp =>
            by_cases hh : (http_result_of_resp resp).protocol = "HTTP" <;>
              simp [classification_error, passive_detection, active_detection, is_http,
                open_conn, initDetectorSt, close_connection, hh] at h

/-- C6 (witness): a raised error on the passive read (message `62 61 64`) is
caught, the opened stream 0 is closed, and the ERROR result carries the
message in the extras map. -/
theorem detect_catches_classification_errors_witness :
    (detect ⟨none, NetRead.netErr [98, 97, 100], false, none, none⟩).2 =
      mk_error_result [98, 97, 100] ∧
    0 ∈ (detect ⟨none, NetRead.netErr [98, 97, 100], false, none, none⟩).1.closed := by
  have h := detect_catches_classification_errors
    ⟨none, NetRead.netErr [98, 97, 100], false, none, none⟩ [98, 97, 100] (by decide)
  exact ⟨h.1, h.2 0 (by decide)⟩
